import Mathlib

/-!
Verification of the Tunnel State and Lifecycle Manager
(src/config/manager_frontend.py, class UniversalTunnelManager).

The Python code is shallowly embedded: the ingress-config manipulation of
add_route / remove_route becomes pure list transformations, the state store
becomes an association list, and external effects (the cloudflared binary,
process liveness, the filesystem) become explicit parameters recording what
the code would observe.  Each definition mirrors one place in the source,
cited by line number.
-/

namespace TunnelManager

/-! ## Ingress rules (Config Generator)

A YAML ingress entry is a mapping with an optional "hostname" key and a
"service" key; `r.get("hostname")` on an entry without the key yields None,
modelled by `Option String`.  All entries the manager ever writes are such
mappings (manager_frontend.py lines 657-661), so the `isinstance(r, dict)`
guards in the source are identically true on reachable configs. -/

structure Rule where
  hostname : Option String
  service : String
deriving DecidableEq, Repr

/-- Terminal catch-all rule appended by add_route (line 661):
`{"service": "http_status:404"}`, which has no hostname key. -/
def catchAll : Rule := ⟨none, "http_status:404"⟩

/-- Service URL built by add_route (line 659):
`f"http://{end_user_url}:{localhost_port}"`. -/
def mkService (endUserUrl : String) (localhostPort : Nat) : String :=
  "http://" ++ endUserUrl ++ ":" ++ toString localhostPort

/-- Ingress-list transformation of add_route (lines 647-661): drop any rule
whose hostname equals the domain, drop every catch-all (by its service
string), then append the new hostname rule followed by one catch-all. -/
def addRouteIngress (domain service : String) (ingress : List Rule) : List Rule :=
  ((ingress.filter (fun r => !(r.hostname == some domain))).filter
      (fun r => !(r.service == "http_status:404")))
    ++ [⟨some domain, service⟩, catchAll]

/-- Ingress-list filter of remove_route (lines 1339-1340): keep the rules
whose hostname differs from the domain. -/
def removeFilter (domain : String) (ingress : List Rule) : List Rule :=
  ingress.filter (fun r => !(r.hostname == some domain))

/-! ## Reachable ingress configs (claim C1)

The config file is modelled at the granularity the two route operations see:
`none` when the file is absent or has no "ingress" key, `some l` otherwise.
add_route treats a missing section as `[]` (lines 647-648) and always writes;
remove_route fails without writing when the section is missing (lines
1332-1336) or when the filter removed nothing (lines 1342-1346). -/

inductive ROp where
  | add (domain endUserUrl : String) (localhostPort : Nat)
  | remove (domain : String)
deriving DecidableEq, Repr

/-- Effect of one successful route operation on the ingress section; `none`
means the operation failed (and, in the source, left the file unwritten). -/
def applyROp : ROp → Option (List Rule) → Option (Option (List Rule))
  | .add d u p, ing =>
      some (some (addRouteIngress d (mkService u p) (ing.getD [])))
  | .remove _, none => none
  | .remove d, some l =>
      let l' := removeFilter d l
      if l'.length = l.length then none else some (some l')

/-- Sequential application of route operations, all of which must succeed. -/
def applyROps : List ROp → Option (List Rule) → Option (Option (List Rule))
  | [], x => some x
  | op :: ops, x =>
      match applyROp op x with
      | none => none
      | some y => applyROps ops y

/-- Hostnames carried by the ingress list, in order. -/
def hostnames (l : List Rule) : List String := l.filterMap Rule.hostname

/-- Ingress invariant of the spec: at most one hostname rule per domain
(equivalently, the hostname list has no duplicates), exactly one catch-all,
and the catch-all is the last element. -/
def ingressOk (l : List Rule) : Prop :=
  (hostnames l).Nodup ∧ l.count catchAll = 1 ∧ l.getLast? = some catchAll

instance (l : List Rule) : Decidable (ingressOk l) := by
  unfold ingressOk; infer_instance

lemma hostnames_sublist {l m : List Rule} (h : List.Sublist l m) :
    List.Sublist (hostnames l) (hostnames m) :=
  h.filterMap Rule.hostname

lemma mem_hostnames {l : List Rule} {d : String} :
    d ∈ hostnames l ↔ ∃ r ∈ l, r.hostname = some d := by
  simp [hostnames, List.mem_filterMap]

lemma not_mem_hostnames_removeFilter (d : String) (l : List Rule) :
    d ∉ hostnames (removeFilter d l) := by
  rw [mem_hostnames]
  rintro ⟨r, hr, hd⟩
  have := List.of_mem_filter hr
  simp [hd] at this

lemma removeFilter_sublist (d : String) (l : List Rule) :
    List.Sublist (removeFilter d l) l :=
  List.filter_sublist l

/-- Key step for add_route: whatever list it starts from, as long as the
hostnames were duplicate-free, the written ingress satisfies the invariant. -/
lemma addRouteIngress_ok (d svc : String) {l : List Rule}
    (h : (hostnames l).Nodup) : ingressOk (addRouteIngress d svc l) := by
  set l1 := removeFilter d l with hl1
  set l2 := l1.filter (fun r => !(r.service == "http_status:404")) with hl2
  have hsub21 : List.Sublist l2 l1 := List.filter_sublist l1
  have hsub1 : List.Sublist l1 l := List.filter_sublist l
  have hadd : addRouteIngress d svc l = l2 ++ [⟨some d, svc⟩, catchAll] := by
    simp [addRouteIngress, removeFilter, hl1, hl2]
  refine ⟨?_, ?_, ?_⟩
  · -- hostnames are the surviving ones plus d, and d no longer occurs
    have hnames : hostnames (addRouteIngress d svc l) = hostnames l2 ++ [d] := by
      rw [hadd]; simp [hostnames, List.filterMap_append, catchAll]
    rw [hnames]
    have hnodup2 : (hostnames l2).Nodup :=
      h.sublist (hostnames_sublist (hsub21.trans hsub1))
    have hd2 : d ∉ hostnames l2 := by
      intro hmem
      exact not_mem_hostnames_removeFilter d l
        ((hostnames_sublist hsub21).mem hmem)
    simp [List.nodup_append, hnodup2, hd2]
  · -- exactly one catch-all: the filtered prefix contains none
    rw [hadd]
    have h2 : l2.count catchAll = 0 := by
      rw [List.count_eq_zero]
      intro hmem
      have := List.of_mem_filter hmem
      simp [catchAll] at this
    have : ([(⟨some d, svc⟩ : Rule), catchAll]).count catchAll = 1 := by
      simp [List.count_cons, catchAll]
    simp [List.count_append, h2, this]
  · -- the catch-all is the final element
    rw [hadd]
    have : l2 ++ [(⟨some d, svc⟩ : Rule), catchAll]
        = (l2 ++ [⟨some d, svc⟩]) ++ [catchAll] := by simp
    rw [this, List.getLast?_concat]

/-- Key step for remove_route: filtering a domain out of an invariant-
satisfying list preserves the invariant (the catch-all has no hostname, so
it survives the filter). -/
lemma count_filter_eq {α : Type} [DecidableEq α] (p : α → Bool) (a : α)
    (l : List α) (h : p a = true) : (l.filter p).count a = l.count a := by
  induction l with
  | nil => rfl
  | cons b t ih =>
      rcases eq_or_ne b a with rfl | hba
      · simp [List.filter_cons, h, List.count_cons, ih]
      · cases hpb : p b
        · simp [List.filter_cons, hpb, List.count_cons, hba, ih]
        · simp [List.filter_cons, hpb, List.count_cons, hba, ih]

lemma removeFilter_ok (d : String) {l : List Rule} (h : ingressOk l) :
    ingressOk (removeFilter d l) := by
  obtain ⟨hnodup, hcount, hlast⟩ := h
  have hpred : (fun r => !(r.hostname == some d)) catchAll = true := by
    simp [catchAll]
  refine ⟨?_, ?_, ?_⟩
  · exact hnodup.sublist (hostnames_sublist (removeFilter_sublist d l))
  · rw [removeFilter]
    exact (count_filter_eq (fun r => !(r.hostname == some d)) catchAll l hpred).trans
      hcount
  · obtain ⟨t, rfl⟩ := List.getLast?_eq_some_iff.mp hlast
    rw [removeFilter, List.filter_append]
    simp only [List.filter_cons, hpred, List.filter_nil]
    exact List.getLast?_concat _

/-- One successful operation starting from any reachable ingress state
produces a present section satisfying the invariant. -/
lemma applyROp_ok {op : ROp} {x y : Option (List Rule)}
    (hx : x = none ∨ x = some [] ∨ ∃ l, x = some l ∧ ingressOk l)
    (h : applyROp op x = some y) : ∃ l, y = some l ∧ ingressOk l := by
  cases op with
  | add d u p =>
      refine ⟨addRouteIngress d (mkService u p) (x.getD []), ?_, ?_⟩
      · simpa [applyROp] using h.symm
      · rcases hx with rfl | rfl | ⟨l, rfl, hl⟩
        · exact addRouteIngress_ok _ _ (by simp [hostnames])
        · exact addRouteIngress_ok _ _ (by simp [hostnames])
        · exact addRouteIngress_ok _ _ hl.1
  | remove d =>
      rcases hx with rfl | rfl | ⟨l, rfl, hl⟩
      · simp [applyROp] at h
      · simp [applyROp, removeFilter] at h
      · simp only [applyROp] at h
        split at h
        · exact absurd h (by simp)
        · exact ⟨removeFilter d l, by simpa using h.symm, removeFilter_ok d hl⟩

/-- Successful sequences preserve the invariant once it holds. -/
lemma applyROps_pres {ops : List ROp} {x res : Option (List Rule)}
    (hx : ∃ l, x = some l ∧ ingressOk l)
    (h : applyROps ops x = some res) : ∃ l, res = some l ∧ ingressOk l := by
  induction ops generalizing x with
  | nil =>
      obtain ⟨l, rfl, hl⟩ := hx
      simp only [applyROps] at h
      exact ⟨l, (Option.some.inj h).symm, hl⟩
  | cons op ops ih =>
      simp only [applyROps] at h
      cases hstep : applyROp op x with
      | none => rw [hstep] at h; exact absurd h (by simp)
      | some y =>
          rw [hstep] at h
          obtain ⟨l, rfl, hl⟩ := hx
          exact ih (applyROp_ok (Or.inr (Or.inr ⟨l, rfl, hl⟩)) hstep) h

/-! ## State-store route lists (claims C4, C5) -/

structure RouteEntry where
  domain : String
  service : String
deriving DecidableEq, Repr

/-- Route-list update mirrored into the state store by add_route (lines
668-670): drop entries for the domain, append the new entry. -/
def addRouteStateRoutes (domain service : String) (routes : List RouteEntry) :
    List RouteEntry :=
  routes.filter (fun r => !(r.domain == domain)) ++ [⟨domain, service⟩]

/-- Observable outcome of remove_route on one tunnel: returned boolean,
whether the config file was rewritten, and the resulting ingress section and
state-store route list. -/
structure RemoveRouteResult where
  success : Bool
  configWritten : Bool
  ingress : Option (List Rule)
  routes : List RouteEntry
deriving DecidableEq, Repr

/-- Embedding of remove_route (lines 1315-1372).  A missing ingress section
fails before any write (lines 1332-1336); a filter that removed nothing fails
before any write (lines 1342-1346); otherwise the config is saved and the
state-store route list filtered (lines 1348-1354, tunnel registered). -/
def removeRoute (domain : String) (ingress : Option (List Rule))
    (routes : List RouteEntry) : RemoveRouteResult :=
  match ingress with
  | none => ⟨false, false, none, routes⟩
  | some l =>
      let l' := removeFilter domain l
      if l'.length = l.length then ⟨false, false, some l, routes⟩
      else ⟨true, true, some l', routes.filter (fun r => !(r.domain == domain))⟩

/-- Condition of claim C5: the config has no hostname rule for the domain
(vacuously so when it has no ingress section at all). -/
def noRuleFor (domain : String) (ingress : Option (List Rule)) : Bool :=
  match ingress with
  | none => true
  | some l => l.all (fun r => !(r.hostname == some domain))

lemma filter_domain_addRouteIngress (d svc : String) (l : List Rule) :
    (addRouteIngress d svc l).filter (fun r => r.hostname == some d)
      = [⟨some d, svc⟩] := by
  rw [addRouteIngress, List.filter_append]
  have hnil : (((l.filter (fun r => !(r.hostname == some d))).filter
      (fun r => !(r.service == "http_status:404"))).filter
      (fun r => r.hostname == some d)) = [] := by
    rw [List.filter_eq_nil_iff]
    intro r hr
    have h1 := List.of_mem_filter (List.mem_of_mem_filter hr)
    simpa using h1
  rw [hnil]
  simp [List.filter_cons, catchAll]

lemma filter_domain_addRouteStateRoutes (d svc : String)
    (routes : List RouteEntry) :
    (addRouteStateRoutes d svc routes).filter (fun r => r.domain == d)
      = [⟨d, svc⟩] := by
  rw [addRouteStateRoutes, List.filter_append]
  have hnil : ((routes.filter (fun r => !(r.domain == d))).filter
      (fun r => r.domain == d)) = [] := by
    rw [List.filter_eq_nil_iff]
    intro r hr
    simpa using List.of_mem_filter hr
  rw [hnil]
  simp [List.filter_cons]

/-! ## Claim theorems C1, C4, C5 -/

/-- C1: along every sequence of successful route-add and route-remove
operations started from an empty or absent config, the resulting ingress
section always exists and satisfies the invariant: duplicate-free hostnames
(at most one rule per domain), exactly one catch-all rule, placed last.
Because every prefix of a successful sequence is itself a successful
sequence, this quantification over all sequences gives the invariant at
every intermediate point as well. -/
theorem c1_ingress_invariant (ops : List ROp) (start res : Option (List Rule))
    (hstart : start = none ∨ start = some []) (hne : ops ≠ [])
    (h : applyROps ops start = some res) :
    ∃ l, res = some l ∧ ingressOk l := by
  cases ops with
  | nil => exact absurd rfl hne
  | cons op ops =>
      simp only [applyROps] at h
      cases hstep : applyROp op start with
      | none => rw [hstep] at h; exact absurd h (by simp)
      | some y =>
          rw [hstep] at h
          have hx : start = none ∨ start = some []
              ∨ ∃ l, start = some l ∧ ingressOk l := by
            rcases hstart with rfl | rfl
            · exact Or.inl rfl
            · exact Or.inr (Or.inl rfl)
          exact applyROps_pres (applyROp_ok hx hstep) h

/-- Witness: one add from an absent config yields an invariant-satisfying
ingress list. -/
theorem c1_ingress_invariant_witness :
    ∃ l, (some [Rule.mk (some "app.example.com") "http://localhost:3000",
        catchAll] : Option (List Rule)) = some l ∧ ingressOk l :=
  c1_ingress_invariant [ROp.add "app.example.com" "localhost" 3000] none
    (some [Rule.mk (some "app.example.com") "http://localhost:3000", catchAll])
    (Or.inl rfl) (by decide) (by decide)

/-- C4: adding a route for the same domain twice leaves exactly one rule for
that domain, carrying the second service, both in the config ingress list and
in the state-store route list; this holds from any starting lists. -/
theorem c4_add_route_idempotent_replace (ing : List Rule)
    (routes : List RouteEntry) (d u1 u2 : String) (p1 p2 : Nat) :
    ((addRouteIngress d (mkService u2 p2)
        (addRouteIngress d (mkService u1 p1) ing)).filter
      (fun r => r.hostname == some d) = [⟨some d, mkService u2 p2⟩])
    ∧ ((addRouteStateRoutes d (mkService u2 p2)
        (addRouteStateRoutes d (mkService u1 p1) routes)).filter
      (fun r => r.domain == d) = [⟨d, mkService u2 p2⟩]) :=
  ⟨filter_domain_addRouteIngress d (mkService u2 p2) _,
   filter_domain_addRouteStateRoutes d (mkService u2 p2) _⟩

/-- C5: removing a route for a domain that has no hostname rule (including a
config with no ingress section) fails, never rewrites the config file, and
leaves the ingress section and the state-store route list unchanged. -/
theorem c5_remove_absent_route_noop (d : String) (ingress : Option (List Rule))
    (routes : List RouteEntry) (h : noRuleFor d ingress = true) :
    removeRoute d ingress routes = ⟨false, false, ingress, routes⟩ := by
  cases ingress with
  | none => rfl
  | some l =>
      have hall : ∀ r ∈ l, (fun r => !(r.hostname == some d)) r = true :=
        List.all_eq_true.mp (by simpa [noRuleFor] using h)
      have hself : removeFilter d l = l :=
        List.filter_eq_self.mpr hall
      simp [removeRoute, hself]

/-- Witness: removing an absent domain from a one-route config is a no-op
that reports failure. -/
theorem c5_remove_absent_route_noop_witness :
    removeRoute "other.example.com"
        (some [Rule.mk (some "app.example.com") "http://localhost:3000",
          catchAll])
        [RouteEntry.mk "app.example.com" "http://localhost:3000"]
      = ⟨false, false,
          some [Rule.mk (some "app.example.com") "http://localhost:3000",
            catchAll],
          [RouteEntry.mk "app.example.com" "http://localhost:3000"]⟩ :=
  c5_remove_absent_route_noop "other.example.com"
    (some [Rule.mk (some "app.example.com") "http://localhost:3000", catchAll])
    [RouteEntry.mk "app.example.com" "http://localhost:3000"] (by decide)

/-! ## String containment (Python `in` on str, str.startswith / str.endswith)

Implemented on the character lists so every use is kernel-evaluable. -/

def listStartsWith {α : Type} [DecidableEq α] : List α → List α → Bool
  | _, [] => true
  | [], _ :: _ => false
  | a :: as, b :: bs => a == b && listStartsWith as bs

def listContainsSeq {α : Type} [DecidableEq α] : List α → List α → Bool
  | [], pat => pat.isEmpty
  | a :: rest, pat => listStartsWith (a :: rest) pat || listContainsSeq rest pat

/-- Python `pat in s` for strings. -/
def strContains (s pat : String) : Bool := listContainsSeq s.data pat.data

/-- Python `s.startswith(pre)`. -/
def strStartsWith (s pre : String) : Bool := listStartsWith s.data pre.data

/-- Python `s.endswith(suf)`. -/
def strEndsWith (s suf : String) : Bool :=
  listStartsWith s.data.reverse suf.data.reverse

/-! ## Tunnel deletion with bounded retries (claim C2) -/

/-- Result of one `cloudflared tunnel delete` invocation: success, or a
CalledProcessError carrying the captured stderr. -/
inductive DeleteAttempt where
  | ok
  | err (stderr : String)
deriving DecidableEq, Repr

/-- Exit modes of the retry loop in delete_tunnel (lines 1420-1448), each
carrying the number of delete invocations made and of recovery rounds (fixed
delay, pkill -9, cleanup; lines 1432-1436) run between attempts. -/
inductive DeleteLoopExit where
  | deleted (attempts recoveries : Nat)
  | loopEnded (attempts recoveries : Nat)
  | failedActive (attempts recoveries : Nat)
  | failedOther (attempts recoveries : Nat) (stderr : String)
deriving DecidableEq, Repr

/-- Retry loop of delete_tunnel.  The fuel argument is the number of retries
the while-condition still allows (max_retries minus retry_count), so fuel 0
is a loop exit without break, which with max_retries = 3 is unreachable; an
attempt whose stderr reports active connections consumes a retry, running a
recovery round when retries remain and returning failure otherwise (lines
1427-1444); any other error returns failure at once (lines 1445-1448). -/
def deleteLoop (provider : Nat → DeleteAttempt) : Nat → Nat → Nat → DeleteLoopExit
  | idx, recov, 0 => .loopEnded idx recov
  | idx, recov, fuel + 1 =>
      match provider idx with
      | .ok => .deleted (idx + 1) recov
      | .err stderr =>
          if strContains stderr "active connections" then
            match fuel with
            | 0 => .failedActive (idx + 1) recov
            | f + 1 => deleteLoop provider (idx + 1) (recov + 1) (f + 1)
          else .failedOther (idx + 1) recov stderr

/-- Local artifacts of a tunnel that delete_tunnel removes only after the
provider-side deletion succeeded (lines 1450-1464). -/
structure LocalArtifacts where
  configFilePresent : Bool
  credFiles : List String
  recordRegistered : Bool
deriving DecidableEq, Repr

structure DeleteOutcome where
  success : Bool
  deleteAttempts : Nat
  recoveryRounds : Nat
  artifacts : LocalArtifacts
deriving DecidableEq, Repr

/-- Constant max_retries of delete_tunnel (line 1417). -/
def maxRetries : Nat := 3

/-- Credential-file test of the cleanup pass (line 1457):
`file.startswith(tunnel_id) and file.endswith(".json")`. -/
def isCredFileOf (tunnelId file : String) : Bool :=
  strStartsWith file tunnelId && strEndsWith file ".json"

/-- Provider deletion plus local cleanup of delete_tunnel (lines 1416-1464):
on any loop failure the function returns false immediately, before the
config-file removal, credential-file removal and state-store unregistration;
those run only once the loop is left without returning. -/
def deleteTunnel (provider : Nat → DeleteAttempt) (tunnelId : Option String)
    (a : LocalArtifacts) : DeleteOutcome :=
  match deleteLoop provider 0 0 maxRetries with
  | .failedActive n r => ⟨false, n, r, a⟩
  | .failedOther n r _ => ⟨false, n, r, a⟩
  | .deleted n r =>
      ⟨true, n, r,
        ⟨false,
          match tunnelId with
          | some tid => a.credFiles.filter (fun f => !(isCredFileOf tid f))
          | none => a.credFiles,
          false⟩⟩
  | .loopEnded n r =>
      ⟨true, n, r,
        ⟨false,
          match tunnelId with
          | some tid => a.credFiles.filter (fun f => !(isCredFileOf tid f))
          | none => a.credFiles,
          false⟩⟩

/-- C2: when every provider delete attempt fails with stderr reporting active
connections, delete_tunnel makes exactly 3 delete attempts (at most 3), runs
the delay / kill / cleanup recovery round twice between them, returns
failure, and leaves the config file, the credential files and the
state-store record untouched. -/
theorem c2_delete_retry_bound (provider : Nat → DeleteAttempt)
    (tunnelId : Option String) (a : LocalArtifacts)
    (h : ∀ k, ∃ s, provider k = .err s ∧ strContains s "active connections" = true) :
    deleteTunnel provider tunnelId a = ⟨false, 3, 2, a⟩ := by
  obtain ⟨s0, h0, h0c⟩ := h 0
  obtain ⟨s1, h1, h1c⟩ := h 1
  obtain ⟨s2, h2, h2c⟩ := h 2
  simp [deleteTunnel, maxRetries, deleteLoop, h0, h1, h2, h0c, h1c, h2c]

/-- Witness: a provider that always reports active connections makes the
delete fail after 3 attempts with all artifacts in place. -/
theorem c2_delete_retry_bound_witness :
    deleteTunnel (fun _ => .err "error: active connections still exist")
        (some "tid0") ⟨true, ["tid0-cred.json"], true⟩
      = ⟨false, 3, 2, ⟨true, ["tid0-cred.json"], true⟩⟩ :=
  c2_delete_retry_bound (fun _ => .err "error: active connections still exist")
    (some "tid0") ⟨true, ["tid0-cred.json"], true⟩
    (fun _ => ⟨"error: active connections still exist", rfl, by decide⟩)

/-! ## Tunnel creation (claim C3) -/

/-- Rendering of the provider registry into the stdout of
`cloudflared tunnel list`: each registered name occurs in the output text
(the real table prints one row per tunnel). -/
def renderListing : List String → String
  | [] => ""
  | n :: rest => n ++ "\n" ++ renderListing rest

structure CreateOutcome where
  success : Bool
  createInvoked : Bool
  registeredAfterCreate : Bool
deriving DecidableEq, Repr

/-- Embedding of create_tunnel after name resolution (lines 376-417):
use_tunnel has registered the name and made it current (line 376); the
existence test is `tunnel_name in result.stdout` (line 385), a substring
check on the raw listing output; an existing name returns success without
invoking create (lines 387-395); otherwise the provider create command runs,
registering the tunnel again on success (line 405) and returning false on
command failure (lines 415-417). -/
def createTunnel (listingOut : String) (createOk : Bool) (name : String) :
    CreateOutcome :=
  if strContains listingOut name then ⟨true, false, false⟩
  else if createOk then ⟨true, true, true⟩
  else ⟨false, true, false⟩

def createTunnelFromRegistry (registry : List String) (createOk : Bool)
    (name : String) : CreateOutcome :=
  createTunnel (renderListing registry) createOk name

lemma listStartsWith_append {α : Type} [DecidableEq α] (l t : List α) :
    listStartsWith (l ++ t) l = true := by
  induction l with
  | nil => cases t <;> rfl
  | cons a as ih => simp [listStartsWith, ih]

lemma listContainsSeq_self_append {α : Type} [DecidableEq α] (pat t : List α) :
    listContainsSeq (pat ++ t) pat = true := by
  cases pat with
  | nil => cases t <;> simp [listContainsSeq, listStartsWith]
  | cons a as =>
      have h1 := listStartsWith_append (a :: as) t
      simp only [List.cons_append] at h1
      simp [listContainsSeq, h1]

lemma listContainsSeq_append_left {α : Type} [DecidableEq α] (h t pat : List α)
    (hc : listContainsSeq t pat = true) : listContainsSeq (h ++ t) pat = true := by
  induction h with
  | nil => simpa using hc
  | cons a h' ih => simp [listContainsSeq, ih]

/-- Membership in the registry implies the substring test on the rendered
listing passes. -/
lemma strContains_renderListing_of_mem {x : String} {l : List String}
    (h : x ∈ l) : strContains (renderListing l) x = true := by
  induction l with
  | nil => cases h
  | cons n rest ih =>
      rcases List.mem_cons.mp h with rfl | hmem
      · have hdata : (renderListing (x :: rest)).data
            = x.data ++ ("\n" ++ renderListing rest).data := by
          simp only [renderListing, String.data_append, List.append_assoc]
        simp only [strContains, hdata]
        exact listContainsSeq_self_append x.data _
      · have hdata : (renderListing (n :: rest)).data
            = (n.data ++ "\n".data) ++ (renderListing rest).data := by
          simp only [renderListing, String.data_append, List.append_assoc]
        simp only [strContains, hdata]
        exact listContainsSeq_append_left _ _ _ (ih hmem)

/-- C3 as stated is false: with provider registry ["foobar"], create("foo")
takes the already-exists path (the substring check at line 385 matches the
listing text "foobar"), returning success without invoking the create
command even though no tunnel named "foo" exists in the registry. -/
theorem c3_counterexample :
    ¬ (((createTunnelFromRegistry ["foobar"] true "foo").success = true
        ∧ (createTunnelFromRegistry ["foobar"] true "foo").createInvoked = false)
      ↔ "foo" ∈ ["foobar"]) := by
  decide

/-- C3 amended: create(name) returns success without invoking the provider
create command exactly when the name occurs as a substring of the registry
listing output (in particular whenever the name is in the registry); when
the name does not occur in the listing output, create is invoked, the tunnel
is registered locally on success, and false is returned on command failure. -/
theorem c3_create_existing_skips (registry : List String) (createOk : Bool)
    (name : String) :
    (((createTunnelFromRegistry registry createOk name).success = true
        ∧ (createTunnelFromRegistry registry createOk name).createInvoked = false)
      ↔ strContains (renderListing registry) name = true)
    ∧ (name ∈ registry →
        (createTunnelFromRegistry registry createOk name).success = true
        ∧ (createTunnelFromRegistry registry createOk name).createInvoked = false)
    ∧ (strContains (renderListing registry) name = false →
        (createTunnelFromRegistry registry createOk name).createInvoked = true
        ∧ (createTunnelFromRegistry registry createOk name).success = createOk
        ∧ (createTunnelFromRegistry registry createOk name).registeredAfterCreate
            = createOk) := by
  refine ⟨?_, ?_, ?_⟩
  · unfold createTunnelFromRegistry createTunnel
    cases hc : strContains (renderListing registry) name <;> cases createOk <;>
      simp [hc]
  · intro hm
    have hc := strContains_renderListing_of_mem hm
    unfold createTunnelFromRegistry createTunnel
    simp [hc]
  · intro hc
    unfold createTunnelFromRegistry createTunnel
    cases createOk <;> simp [hc]

/-- Witness: a registered name is treated as success without create; an
absent name invokes create and mirrors the command result. -/
theorem c3_create_existing_skips_witness :
    ((createTunnelFromRegistry ["demo"] true "demo").success = true
      ∧ (createTunnelFromRegistry ["demo"] true "demo").createInvoked = false)
    ∧ ((createTunnelFromRegistry ["legacy"] false "demo").createInvoked = true
      ∧ (createTunnelFromRegistry ["legacy"] false "demo").success = false
      ∧ (createTunnelFromRegistry ["legacy"] false "demo").registeredAfterCreate
          = false) :=
  ⟨(c3_create_existing_skips ["demo"] true "demo").2.1 (by decide),
   (c3_create_existing_skips ["legacy"] false "demo").2.2 (by decide)⟩

/-! ## Temporary tunnel supervisor (claim C6) -/

/-- URL extraction of create_temp_tunnel (lines 456-466).  The loop breaks
exactly when `re.search(r"https://[^\s]+", line)` matches: a literal
"https://" followed by at least one non-whitespace character (the guard
`"https://" in line or "trycloudflare.com" in line` is implied by a match).
The search scans left to right and, on a match, returns the prefix plus the
maximal run of non-whitespace characters. -/
def findUrl : List Char → Option (List Char)
  | [] => none
  | c :: rest =>
      if listStartsWith (c :: rest) "https://".data then
        let token := ((c :: rest).drop 8).takeWhile (fun ch => !ch.isWhitespace)
        if token.isEmpty then findUrl rest else some ("https://".data ++ token)
      else findUrl rest

/-- Observation made by one iteration of the polling loop: either
process.poll() reported the child gone (line 450), or a line was read from
its stderr (line 459). -/
inductive PollStep where
  | exited (stderrOut : String)
  | line (s : String)
deriving DecidableEq, Repr

def isExitStep : PollStep → Bool
  | .exited _ => true
  | .line _ => false

/-- Transient record registered by create_temp_tunnel on success (lines
478-485). -/
structure TempRecord where
  temp_tunnel : Bool
  temp_url : String
  temp_port : Nat
  temp_process_id : Nat
  auto_start : Bool
deriving DecidableEq, Repr

structure TempOutcome where
  url : Option String
  terminatedProcess : Bool
  registered : Option TempRecord
deriving DecidableEq, Repr

/-- Polling loop of create_temp_tunnel (lines 442-496).  The step list is
what the loop observes inside its 30-second budget; exhausting it is the
timeout, which terminates the spawned process and returns None (lines
472-475).  A step reporting process exit returns None without terminating
(the child is already gone; lines 450-454).  A line matching the URL pattern
breaks the loop and registers the transient record with auto_start forced
false (lines 460-496). -/
def createTempTunnel (port pid : Nat) : List PollStep → TempOutcome
  | [] => ⟨none, true, none⟩
  | .exited _ :: _ => ⟨none, false, none⟩
  | .line s :: rest =>
      match findUrl s.data with
      | some u =>
          ⟨some (String.mk u), false, some ⟨true, String.mk u, port, pid, false⟩⟩
      | none => createTempTunnel port pid rest

/-- C6: when no observed line matches the URL pattern, create_temp_tunnel
returns none and registers no transient record, and the spawned process is
terminated exactly on the timeout path (not when it already exited); and
whenever a transient record is registered (any run), a URL was found and the
record carries it together with the port and process id, with temp_tunnel
true and auto_start forced false. -/
theorem c6_temp_timeout_no_record (steps : List PollStep) (port pid : Nat)
    (steps2 : List PollStep) (port2 pid2 : Nat) (rec : TempRecord)
    (hno : ∀ s, PollStep.line s ∈ steps → findUrl s.data = none)
    (hreg : (createTempTunnel port2 pid2 steps2).registered = some rec) :
    ((createTempTunnel port pid steps).url = none
      ∧ (createTempTunnel port pid steps).registered = none
      ∧ (createTempTunnel port pid steps).terminatedProcess
          = !(steps.any isExitStep))
    ∧ (rec.temp_tunnel = true ∧ rec.auto_start = false ∧ rec.temp_port = port2
      ∧ rec.temp_process_id = pid2
      ∧ (createTempTunnel port2 pid2 steps2).url = some rec.temp_url) := by
  constructor
  · induction steps with
    | nil => exact ⟨rfl, rfl, rfl⟩
    | cons st rest ih =>
        cases st with
        | exited e => exact ⟨rfl, rfl, by simp [createTempTunnel, isExitStep]⟩
        | line s =>
            have hs : findUrl s.data = none := hno s (List.mem_cons_self _ _)
            have ih' := ih (fun s2 hs2 => hno s2 (List.mem_cons_of_mem _ hs2))
            refine ⟨?_, ?_, ?_⟩
            · simpa [createTempTunnel, hs] using ih'.1
            · simpa [createTempTunnel, hs] using ih'.2.1
            · simpa [createTempTunnel, hs, isExitStep] using ih'.2.2
  · induction steps2 with
    | nil => exact absurd hreg (by simp [createTempTunnel])
    | cons st rest ih =>
        cases st with
        | exited e => exact absurd hreg (by simp [createTempTunnel])
        | line s =>
            cases hu : findUrl s.data with
            | some u =>
                simp only [createTempTunnel, hu] at hreg ⊢
                cases hreg
                exact ⟨rfl, rfl, rfl, rfl, rfl⟩
            | none =>
                simp only [createTempTunnel, hu] at hreg ⊢
                exact ih hreg

/-- Witness: two non-matching lines time out with no record and the process
terminated, while a matching line registers the record with its URL, port
and pid and auto_start false. -/
theorem c6_temp_timeout_no_record_witness :
    ((createTempTunnel 3000 42 [PollStep.line "INF Starting tunnel"]).url = none
      ∧ (createTempTunnel 3000 42 [PollStep.line "INF Starting tunnel"]).registered
          = none
      ∧ (createTempTunnel 3000 42 [PollStep.line "INF Starting tunnel"]).terminatedProcess
          = !([PollStep.line "INF Starting tunnel"].any isExitStep))
    ∧ (TempRecord.temp_tunnel
          ⟨true, "https://a-b.trycloudflare.com", 8080, 7, false⟩ = true
      ∧ TempRecord.auto_start
          ⟨true, "https://a-b.trycloudflare.com", 8080, 7, false⟩ = false
      ∧ TempRecord.temp_port
          ⟨true, "https://a-b.trycloudflare.com", 8080, 7, false⟩ = 8080
      ∧ TempRecord.temp_process_id
          ⟨true, "https://a-b.trycloudflare.com", 8080, 7, false⟩ = 7
      ∧ (createTempTunnel 8080 7
            [PollStep.line "visit https://a-b.trycloudflare.com now"]).url
          = some (TempRecord.temp_url
              ⟨true, "https://a-b.trycloudflare.com", 8080, 7, false⟩)) :=
  c6_temp_timeout_no_record [PollStep.line "INF Starting tunnel"] 3000 42
    [PollStep.line "visit https://a-b.trycloudflare.com now"] 8080 7
    ⟨true, "https://a-b.trycloudflare.com", 8080, 7, false⟩
    (by intro s hs; cases hs with
        | head => decide
        | tail _ h2 => cases h2)
    (by decide)

/-! ## State store and transient-record reaping (claims C7, C8)

The persisted document maps tunnel names to records; Python dict iteration
order is insertion order, modelled by an association list.  Only the record
fields these claims inspect are carried. -/

structure TunnelInfo where
  auto_start : Bool
  temp_tunnel : Bool
  temp_process_id : Option Nat
deriving DecidableEq, Repr

structure ManagerState where
  tunnels : List (String × TunnelInfo)
  current_tunnel : Option String
deriving DecidableEq, Repr

/-- Record returned by `state["tunnels"].get(tunnel_name, {})` when the name
is unknown: every field read on it is falsy / absent. -/
def emptyInfo : TunnelInfo := ⟨false, false, none⟩

/-- Python truthiness of the stored process id: `if pid:` is false both for
None and for the integer 0. -/
def truthyPid : Option Nat → Bool
  | none => false
  | some p => p != 0

/-- Test applied by list_temp_tunnels to keep a record in its result
(lines 536-542): a temp record with a truthy pid whose process exists. -/
def tempAliveEntry (alive : Nat → Bool) (i : TunnelInfo) : Bool :=
  i.temp_tunnel &&
    (match i.temp_process_id with
     | some p => (p != 0) && alive p
     | none => false)

/-- Test for the reap branch of list_temp_tunnels (lines 543-545): a temp
record with a truthy pid whose process is gone is unregistered. -/
def tempDeadEntry (alive : Nat → Bool) (i : TunnelInfo) : Bool :=
  i.temp_tunnel &&
    (match i.temp_process_id with
     | some p => (p != 0) && !(alive p)
     | none => false)

/-- Embedding of list_temp_tunnels (lines 530-545): collect the live temp
records, unregister the dead ones (a temp record whose pid is None or 0 is
neither collected nor unregistered); _unregister_tunnel clears
current_tunnel when it pointed at a removed name (lines 104-111). -/
def listTempTunnels (alive : Nat → Bool) (st : ManagerState) :
    List TunnelInfo × ManagerState :=
  ((st.tunnels.filter (fun e => tempAliveEntry alive e.2)).map Prod.snd,
   ⟨st.tunnels.filter (fun e => !(tempDeadEntry alive e.2)),
    match st.current_tunnel with
    | some c =>
        if st.tunnels.any (fun e => e.1 == c && tempDeadEntry alive e.2)
        then none else some c
    | none => none⟩)

/-- Merge of _update_tunnel_info clearing the temp pid (line 274): rewrite
the record when the name is registered, otherwise change nothing. -/
def clearTempPid (st : ManagerState) (name : String) : ManagerState :=
  ⟨st.tunnels.map (fun e =>
      if e.1 == name then (e.1, ⟨e.2.auto_start, e.2.temp_tunnel, none⟩) else e),
    st.current_tunnel⟩

/-- Embedding of _check_tunnel_status (lines 241-276).  External observations
are parameters: systemd user-service support, the service being active, a
matching manual process (pgrep), and per-pid liveness (os.kill(pid, 0)).
When the temp pid is truthy but dead, the record's pid is set to None and
the record itself stays registered. -/
def checkTunnelStatus (alive : Nat → Bool)
    (systemdUser serviceActive manualRunning : Bool) (st : ManagerState)
    (name : String) : String × ManagerState :=
  let info := (st.tunnels.lookup name).getD emptyInfo
  if info.auto_start && systemdUser && serviceActive then
    ("running (service)", st)
  else if manualRunning then ("running (manual)", st)
  else
    match info.temp_process_id with
    | some p =>
        if p != 0 then
          if alive p then ("running (temp)", st)
          else ("stopped", clearTempPid st name)
        else ("stopped", st)
    | none => ("stopped", st)

lemma lookup_clearTempPid {st : ManagerState} {name : String} {info : TunnelInfo}
    (h : st.tunnels.lookup name = some info) :
    (clearTempPid st name).tunnels.lookup name
      = some ⟨info.auto_start, info.temp_tunnel, none⟩ := by
  obtain ⟨tunnels, current⟩ := st
  simp only [clearTempPid]
  induction tunnels with
  | nil => cases h
  | cons e t ih =>
      by_cases he : name = e.1
      · rw [List.lookup_cons] at h
        simp only [he, beq_self_eq_true] at h
        have he2 : e.2 = info := Option.some.inj h
        simp only [List.map_cons, beq_iff_eq, he, if_pos rfl]
        rw [List.lookup_cons]
        simp [he, he2]
      · rw [List.lookup_cons] at h
        have hne : (name == e.1) = false := by simpa using he
        rw [hne] at h
        simp only [List.map_cons]
        have hne2 : (e.1 == name) = false := by
          simpa using fun hx => he hx.symm
        rw [hne2, if_neg (by simp)]
        rw [List.lookup_cons, hne]
        exact ih h

/-- C7 as stated is false: for the record "t" (temp_tunnel true, pid 7) whose
process no longer exists, the next status check does not reap it — the record
survives _check_tunnel_status (only its pid is cleared), and a subsequent
list_temp_tunnels leaves the pid-less record in the store as well, so the
transient record outlives the next status check. -/
theorem c7_counterexample :
    (((checkTunnelStatus (fun _ => false) false false false
          ⟨[("t", ⟨false, true, some 7⟩)], some "t"⟩ "t").2).tunnels.lookup "t"
        ≠ none)
    ∧ (((listTempTunnels (fun _ => false)
          (checkTunnelStatus (fun _ => false) false false false
            ⟨[("t", ⟨false, true, some 7⟩)], some "t"⟩ "t").2).2).tunnels.lookup "t"
        ≠ none) := by
  decide

/-- C7 amended: a temp record whose tracked pid is set (and nonzero) and
whose process no longer exists is never returned by list_temp_tunnels and is
removed from the state store by it; _check_tunnel_status, by contrast, does
not reap such a record — when it reaches the temp branch it reports stopped,
clears the pid, and leaves the record registered. -/
theorem c7_list_temp_reaps (alive : Nat → Bool) (st : ManagerState)
    (name : String) (info : TunnelInfo) (p : Nat)
    (systemdUser serviceActive manualRunning : Bool)
    (hlookup : st.tunnels.lookup name = some info)
    (htemp : info.temp_tunnel = true) (hpid : info.temp_process_id = some p)
    (hp0 : p ≠ 0) (hdead : alive p = false)
    (hman : manualRunning = false)
    (hsvc : info.auto_start = false ∨ systemdUser = false ∨ serviceActive = false) :
    (info ∉ (listTempTunnels alive st).1
      ∧ (name, info) ∉ ((listTempTunnels alive st).2).tunnels)
    ∧ ((checkTunnelStatus alive systemdUser serviceActive manualRunning st
          name).1 = "stopped"
      ∧ ((checkTunnelStatus alive systemdUser serviceActive manualRunning st
          name).2).tunnels.lookup name
        = some ⟨info.auto_start, info.temp_tunnel, none⟩) := by
  have hdeadEntry : tempDeadEntry alive info = true := by
    simp [tempDeadEntry, htemp, hpid, hp0, hdead]
  have haliveEntry : tempAliveEntry alive info = false := by
    simp [tempAliveEntry, htemp, hpid, hdead]
  refine ⟨⟨?_, ?_⟩, ?_⟩
  · intro hin
    obtain ⟨e, he, heq⟩ := List.mem_map.mp hin
    have := List.of_mem_filter he
    rw [heq] at this
    rw [haliveEntry] at this
    exact absurd this (by simp)
  · intro hin
    have := List.of_mem_filter hin
    rw [hdeadEntry] at this
    exact absurd this (by simp)
  · have hnosvc : (info.auto_start && systemdUser && serviceActive) = false := by
      rcases hsvc with h | h | h <;> simp [h]
    constructor
    · simp [checkTunnelStatus, hlookup, hnosvc, hman, hpid, hp0, hdead]
    · simp only [checkTunnelStatus, hlookup, Option.getD_some, hnosvc,
        Bool.false_eq_true, if_false, hman, hpid]
      rw [if_pos (by simpa using hp0), if_neg (by simp [hdead])]
      exact lookup_clearTempPid hlookup

/-- Witness: the dead-pid temp record "t" is neither listed nor kept by
list_temp_tunnels, while the status check reports stopped and keeps the
record with its pid cleared. -/
theorem c7_list_temp_reaps_witness :
    ((⟨false, true, some 7⟩ : TunnelInfo)
        ∉ (listTempTunnels (fun _ => false)
            ⟨[("t", ⟨false, true, some 7⟩)], some "t"⟩).1
      ∧ ("t", (⟨false, true, some 7⟩ : TunnelInfo))
        ∉ ((listTempTunnels (fun _ => false)
            ⟨[("t", ⟨false, true, some 7⟩)], some "t"⟩).2).tunnels)
    ∧ ((checkTunnelStatus (fun _ => false) false false false
          ⟨[("t", ⟨false, true, some 7⟩)], some "t"⟩ "t").1 = "stopped"
      ∧ ((checkTunnelStatus (fun _ => false) false false false
          ⟨[("t", ⟨false, true, some 7⟩)], some "t"⟩ "t").2).tunnels.lookup "t"
        = some ⟨false, true, none⟩) :=
  c7_list_temp_reaps (fun _ => false)
    ⟨[("t", ⟨false, true, some 7⟩)], some "t"⟩ "t" ⟨false, true, some 7⟩ 7
    false false false (by decide) rfl rfl (by decide) rfl rfl
    (Or.inl rfl)

/-! ## State-file loading (claim C8) -/

/-- On-disk condition of the state file as seen by _load_state: the open can
fail (file missing or unreadable) or produce text that json.load may or may
not parse. -/
inductive StateFileCond where
  | missing
  | unreadable
  | content (s : String)

/-- Default document substituted by the bare except of _load_state (line 73):
`{"tunnels": {}, "current_tunnel": None}`. -/
def emptyState : ManagerState := ⟨[], none⟩

/-- Embedding of _load_state (lines 67-73): try to open and parse; any
failure (missing file, read error, invalid JSON) lands in the bare except
and yields the empty default.  The JSON decoder is a parameter. -/
def loadState (parse : String → Option ManagerState) :
    StateFileCond → ManagerState
  | .missing => emptyState
  | .unreadable => emptyState
  | .content s =>
      match parse s with
      | some st => st
      | none => emptyState

/-- C8: for every failing on-disk condition (missing, unreadable, or
unparseable content) and every decoder, _load_state returns the empty
default state with no tunnels and no current tunnel; being a total Lean
function, it never raises. -/
theorem c8_load_state_fails_soft (parse : String → Option ManagerState)
    (cond : StateFileCond)
    (h : cond = .missing ∨ cond = .unreadable
      ∨ ∃ s, cond = .content s ∧ parse s = none) :
    loadState parse cond = emptyState
    ∧ (loadState parse cond).tunnels = []
    ∧ (loadState parse cond).current_tunnel = none := by
  rcases h with rfl | rfl | ⟨s, rfl, hs⟩
  · exact ⟨rfl, rfl, rfl⟩
  · exact ⟨rfl, rfl, rfl⟩
  · refine ⟨?_, ?_, ?_⟩ <;> simp [loadState, hs, emptyState]

/-- Witness: invalid JSON content yields the empty default state. -/
theorem c8_load_state_fails_soft_witness :
    loadState (fun _ => none) (StateFileCond.content "not valid json") = emptyState
    ∧ (loadState (fun _ => none)
        (StateFileCond.content "not valid json")).tunnels = []
    ∧ (loadState (fun _ => none)
        (StateFileCond.content "not valid json")).current_tunnel = none :=
  c8_load_state_fails_soft (fun _ => none) (StateFileCond.content "not valid json")
    (Or.inr (Or.inr ⟨"not valid json", rfl, rfl⟩))

/-! ## Name-resolution preludes (claims C9, C10) -/

/-- Python truthiness of an optional string: None and the empty string are
falsy. -/
def pyFalsyStr : Option String → Bool
  | none => true
  | some s => s.isEmpty

/-- Call shape for the tunnel_name parameter of add_route: the caller either
omits it (taking the keyword default) or passes a value, possibly None. -/
inductive AddRouteCall where
  | omitted
  | passed (v : Option String)
deriving DecidableEq, Repr

/-- Outcome of the name-resolution prelude of add_route. -/
structure NameResolution where
  failed : Bool
  name : Option String
  usedFallback : Bool
  switched : Bool
deriving DecidableEq, Repr

/-- Embedding of the prelude of add_route (lines 605-616): the parameter
defaults to the literal string Universal-Tunnel; a falsy value falls back to
the currently selected tunnel; a still-falsy value fails with No tunnel
specified; a name differing from the selection switches to it via use_tunnel
(which registers it and makes it current), and the body then auto-creates
the tunnel (line 617). -/
def addRouteResolve (call : AddRouteCall) (selfName : Option String) :
    NameResolution :=
  let tn : Option String :=
    match call with
    | .omitted => some "Universal-Tunnel"
    | .passed v => v
  let usedFallback := pyFalsyStr tn
  let tn1 := if usedFallback then selfName else tn
  if pyFalsyStr tn1 then ⟨true, tn1, usedFallback, false⟩
  else ⟨false, tn1, usedFallback, !(tn1 == selfName)⟩

/-- C9: a call that omits the tunnel-name argument resolves to the literal
Universal-Tunnel whatever tunnel is currently selected, never takes the
fallback branch that would substitute the selection, never fails, and
switches (auto-creating in the body) whenever the selection differs. -/
theorem c9_add_route_default_name (selfName : Option String) :
    addRouteResolve AddRouteCall.omitted selfName
      = ⟨false, some "Universal-Tunnel", false,
          !(some "Universal-Tunnel" == selfName)⟩ := by
  have h : ("Universal-Tunnel").isEmpty = false := by decide
  simp [addRouteResolve, pyFalsyStr, h]

/-- Resolution steps of the create_tunnel prelude. -/
inductive CreateNameStep where
  | requiredFailure
  | proceed (name : Option String)
deriving DecidableEq, Repr

/-- Embedding of the prelude of create_tunnel (lines 367-375): the guard
that would print Tunnel name required sits inside the branch that has just
assigned a truthy self.tunnel_name, so each path falls through to proceed. -/
def createTunnelResolve (tn selfName : Option String) : CreateNameStep :=
  if pyFalsyStr tn then
    if !(pyFalsyStr selfName) then
      if pyFalsyStr selfName then .requiredFailure else .proceed selfName
    else .proceed tn
  else .proceed tn

/-- Python f-string interpolation of an optional string: str(None) is the
text None. -/
def pyStr : Option String → String
  | none => "None"
  | some s => s

/-- Config path used by __init__ / use_tunnel / _register_tunnel (lines 49,
88, 281): `f"config-{tunnel_name}.yml"`. -/
def configPath (n : Option String) : String := "config-" ++ pyStr n ++ ".yml"

/-- Embedding of _register_tunnel (lines 81-95) keyed by the possibly-None
name: insert a fresh record (with its config path) only if the key is
absent, and set current_tunnel to the name. -/
def registerTunnel (name : Option String)
    (tunnels : List (Option String × String)) :
    List (Option String × String) × Option String :=
  (if tunnels.any (fun e => e.1 == name) then tunnels
   else tunnels ++ [(name, configPath name)], name)

/-- C10: the Tunnel name required failure of create_tunnel is unreachable
for every combination of argument and selection; a call with no name and no
selection proceeds with the name None, whose config path interpolates to
config-None.yml and whose registration creates a state-store record under
the None key (current_tunnel also becoming None). -/
theorem c10_required_guard_unreachable :
    (∀ tn selfName : Option String,
      createTunnelResolve tn selfName ≠ CreateNameStep.requiredFailure)
    ∧ createTunnelResolve none none = CreateNameStep.proceed none
    ∧ configPath none = "config-None.yml"
    ∧ registerTunnel none [] = ([(none, "config-None.yml")], none) := by
  refine ⟨?_, rfl, by decide, by decide⟩
  intro tn selfName
  unfold createTunnelResolve
  cases h1 : pyFalsyStr tn <;> cases h2 : pyFalsyStr selfName <;> simp [h1, h2]

end TunnelManager
